import Mathlib

/-!
Verification of the voice-assistant relay server (src/main.py) against its
natural-language specification.

The server is a single websocket handler: it accumulates base64-decoded
audio chunks in a per-connection buffer; on a stop_recording message with a
non-empty buffer it runs a strictly sequential pipeline
(speech-to-text, language-model completion, optional text-to-speech),
converts each stage failure into a status message, resets the buffer and
emits a terminal Ready status.  We embed the handler as a trace-producing
function over a list of inbound frames, parameterised by the three external
gateways, and prove the spec claims about the traces.
-/

/-! ## Base64, modelling Python base64.b64decode / b64encode -/

/-- Index of a character in the standard base64 alphabet, none if the
character is not part of the alphabet. -/
def b64Index (c : Char) : Option Nat :=
  if 'A' ≤ c ∧ c ≤ 'Z' then some (c.toNat - 'A'.toNat)
  else if 'a' ≤ c ∧ c ≤ 'z' then some (c.toNat - 'a'.toNat + 26)
  else if '0' ≤ c ∧ c ≤ '9' then some (c.toNat - '0'.toNat + 52)
  else if c = '+' then some 62
  else if c = '/' then some 63
  else none

/-- Core of Python binascii.a2b_base64 in legacy (non-strict) mode, which is
what base64.b64decode calls: characters outside the alphabet are skipped;
a padding character only counts once two data characters of the current
quadruple have been seen, and decoding stops when the accumulated padding
completes a quadruple; each consumed data character resets the padding
count; at end of input a quadruple position of 1, 2 or 3 raises (returns
none).  Arguments: remaining characters, position inside the current
quadruple (0-3), number of padding characters seen since the last data
character, pending bits, output bytes so far.  Checked against CPython
3.11 on an exhaustive corpus of short strings over the alphabet
A a = / and invalid characters, plus 200000 random strings. -/
def a2bBase64 : List Char → Nat → Nat → Nat → List Nat → Option (List Nat)
  | [], quadPos, _, _, acc => if quadPos = 0 then some acc else none
  | c :: cs, quadPos, pads, leftchar, acc =>
    if c = '=' then
      if quadPos ≥ 2 ∧ quadPos + (pads + 1) ≥ 4 then some acc
      else a2bBase64 cs quadPos (if quadPos ≥ 2 then pads + 1 else pads) leftchar acc
    else
      match b64Index c with
      | none => a2bBase64 cs quadPos pads leftchar acc
      | some v =>
        match quadPos with
        | 0 => a2bBase64 cs 1 0 v acc
        | 1 => a2bBase64 cs 2 0 (v % 16) (acc ++ [leftchar * 4 + v / 16])
        | 2 => a2bBase64 cs 3 0 (v % 4) (acc ++ [leftchar * 16 + v / 4])
        | _ => a2bBase64 cs 0 0 0 (acc ++ [leftchar * 64 + v])

/-- Python base64.b64decode on a text argument: the argument is first
encoded as ASCII, so any character with code point 128 or above raises
ValueError; then binascii.a2b_base64 runs.  none models either
exception. -/
def pyB64decode (s : String) : Option (List Nat) :=
  if s.toList.all (fun c => c.toNat < 128) then a2bBase64 s.toList 0 0 0 []
  else none

/-- Decode every payload of a list of audio_chunk messages; none if any
payload fails to decode. -/
def decodeAll : List String → Option (List (List Nat))
  | [] => some []
  | d :: ds =>
    match pyB64decode d, decodeAll ds with
    | some b, some bs => some (b :: bs)
    | _, _ => none

/-- Character of the standard base64 alphabet at a given 6-bit index. -/
def b64CharOf (n : Nat) : Char :=
  if n < 26 then Char.ofNat ('A'.toNat + n)
  else if n < 52 then Char.ofNat ('a'.toNat + n - 26)
  else if n < 62 then Char.ofNat ('0'.toNat + n - 52)
  else if n = 62 then '+'
  else '/'

/-- Python base64.b64encode: bytes three at a time, padded with = signs. -/
def b64encodeChars : List Nat → List Char
  | [] => []
  | [b1] => [b64CharOf (b1 / 4), b64CharOf (b1 % 4 * 16), '=', '=']
  | [b1, b2] =>
    [b64CharOf (b1 / 4), b64CharOf (b1 % 4 * 16 + b2 / 16),
     b64CharOf (b2 % 16 * 4), '=']
  | b1 :: b2 :: b3 :: rest =>
    b64CharOf (b1 / 4) :: b64CharOf (b1 % 4 * 16 + b2 / 16) ::
    b64CharOf (b2 % 16 * 4 + b3 / 64) :: b64CharOf (b3 % 64) ::
    b64encodeChars rest

/-- Python base64.b64encode followed by .decode, as used for the audio
event payload. -/
def b64encode (bs : List Nat) : String :=
  String.mk (b64encodeChars bs)

/-! ## Messages and events -/

/-- A JSON value as far as the handler inspects one: it only ever compares
fields against string literals or passes them to b64decode. -/
inductive JVal where
  | str (s : String)
  | num (n : Int)
  | otherVal
  deriving DecidableEq, Repr

/-- An inbound websocket text frame after json.loads: either the text was
not valid JSON (json.loads raises), or it is an object given by its fields.
Python dict lookup of a missing key raises KeyError. -/
inductive Inbound where
  | notJson
  | obj (fields : List (String × JVal))
  deriving DecidableEq, Repr

/-- Outbound messages, the payloads of websocket.send_json. -/
inductive OutMsg where
  | status (text : String)
  | transcription (text : String)
  | responseText (text : String)
  | audio (data : String)
  | browserTts (text : String)
  deriving DecidableEq, Repr

/-- Observable events of one session: messages sent to the client and
calls made to the three external gateways. -/
inductive Ev where
  | send (m : OutMsg)
  | callSTT (audio : List Nat)
  | callLLM (system user : String)
  | callTTS (text : String)
  deriving DecidableEq, Repr

/-- Result of the elevenlabs text_to_speech.convert call: the SDK may
return a stream of fragments or a single byte blob; the source branches on
the shape at runtime. -/
inductive TtsResult where
  | stream (frags : List (List Nat))
  | blob (bytes : List Nat)
  deriving DecidableEq, Repr

/-- The three external gateways, as oracles: an error value models the
exception raised by the client library. -/
structure Gateways where
  stt : List Nat → Except Unit String
  llm : String → Except Unit String
  tts : String → Except Unit TtsResult

/-- The Python whitespace predicate Py_UNICODE_ISSPACE, used by str.strip
with no argument: code points 9-13, 28-31, 32, 133 (NEL), 160 (NBSP),
5760 (Ogham), 8192-8202 (en quad through hair space), 8232, 8233 (line and
paragraph separator), 8239 (narrow NBSP), 8287 (medium mathematical
space), 12288 (ideographic space).  This is exactly the set of code points
on which Python str.isspace holds, enumerated from CPython 3.11. -/
def pyIsSpace (c : Char) : Bool :=
  decide (9 ≤ c.toNat ∧ c.toNat ≤ 13) || decide (28 ≤ c.toNat ∧ c.toNat ≤ 32) ||
  c.toNat == 133 || c.toNat == 160 || c.toNat == 5760 ||
  decide (8192 ≤ c.toNat ∧ c.toNat ≤ 8202) ||
  c.toNat == 8232 || c.toNat == 8233 || c.toNat == 8239 || c.toNat == 8287 ||
  c.toNat == 12288

/-- Python str.strip with no argument: remove leading and trailing
Python whitespace. -/
def pyStrip (s : String) : String :=
  String.mk
    (((s.toList.dropWhile pyIsSpace).reverse.dropWhile pyIsSpace).reverse)

/-- The system prompt of the Groq chat completion call. -/
def systemPrompt : String :=
  "You are a helpful conversational voice assistant. Keep your responses concise and natural."

/-- The hardcoded TTS switch in process_llm_and_tts. -/
def ENABLE_ELEVENLABS_TTS : Bool := false

/-! ## The pipeline -/

/-- Embedding of process_llm_and_tts (src/main.py lines 111-192).  The
local constant ENABLE_ELEVENLABS_TTS is lifted to a parameter so both
values of the switch can be reasoned about; the source fixes it to false.
Returns the event trace of the call. -/
def process_llm_and_tts (g : Gateways) (enableTts : Bool) (user_text : String) :
    List Ev :=
  Ev.send (OutMsg.status "Thinking...") ::
  Ev.callLLM systemPrompt user_text ::
  match g.llm user_text with
  | .error _ => [Ev.send (OutMsg.status "Error in LLM.")]
  | .ok ai_text =>
    Ev.send (OutMsg.responseText ai_text) ::
    if enableTts then
      Ev.send (OutMsg.status "Speaking (ElevenLabs)...") ::
      Ev.callTTS ai_text ::
      match g.tts ai_text with
      | .error _ => [Ev.send (OutMsg.status "Error in TTS.")]
      | .ok r =>
        let full_audio :=
          match r with
          | .stream frags =>
            frags.foldl (fun acc chunk => if chunk = [] then acc else acc ++ chunk) []
          | .blob b => b
        if full_audio = [] then []
        else [Ev.send (OutMsg.audio (b64encode full_audio))]
    else
      [Ev.send (OutMsg.status "Speaking (Browser)..."),
       Ev.send (OutMsg.browserTts ai_text)]

/-- Embedding of the stop_recording pipeline body (src/main.py lines
56-102): the speech-to-text call wrapped in try/except, the empty-transcript
check, and the handoff to process_llm_and_tts. -/
def run_pipeline (g : Gateways) (enableTts : Bool) (audio : List Nat) : List Ev :=
  Ev.callSTT audio ::
  match g.stt audio with
  | .error _ => [Ev.send (OutMsg.status "Error in transcription.")]
  | .ok user_text =>
    if pyStrip user_text ≠ "" then
      Ev.send (OutMsg.transcription user_text) ::
      process_llm_and_tts g enableTts user_text
    else
      [Ev.send (OutMsg.status "No speech detected.")]

/-! ## The session loop -/

/-- Outcome of one session: the client disconnected (the only exception the
handler catches) or an uncaught exception terminated the handler; either
way the trace of events produced up to that point. -/
inductive HResult where
  | disconnected (trace : List Ev)
  | crashed (trace : List Ev)
  deriving DecidableEq, Repr

/-- Prefix a trace onto the outcome of the rest of a session. -/
def prependTrace (t : List Ev) : HResult → HResult
  | .disconnected u => .disconnected (t ++ u)
  | .crashed u => .crashed (t ++ u)

/-- The trace of a session outcome. -/
def traceOf : HResult → List Ev
  | .disconnected t => t
  | .crashed t => t

/-- Embedding of the websocket_endpoint receive loop (src/main.py lines
38-109).  The input list is the sequence of inbound frames; its end models
the WebSocketDisconnect that the handler catches.  Any other exception
(json.loads failure, KeyError on a missing field, binascii.Error from
b64decode, TypeError on a non-string data field) is uncaught and
terminates the session: modelled as the crashed outcome. -/
def websocket_endpoint (g : Gateways) (enableTts : Bool) :
    List Inbound → List Nat → HResult
  | [], _ => .disconnected []
  | .notJson :: _, _ => .crashed []
  | .obj fields :: rest, audio_buffer =>
    match fields.lookup "type" with
    | none => .crashed []
    | some t =>
      if t = JVal.str "audio_chunk" then
        match fields.lookup "data" with
        | some (JVal.str d) =>
          match pyB64decode d with
          | some chunk => websocket_endpoint g enableTts rest (audio_buffer ++ chunk)
          | none => .crashed []
        | _ => .crashed []
      else if t = JVal.str "stop_recording" then
        if audio_buffer.length > 0 then
          prependTrace
            (run_pipeline g enableTts audio_buffer ++ [Ev.send (OutMsg.status "Ready")])
            (websocket_endpoint g enableTts rest [])
        else websocket_endpoint g enableTts rest audio_buffer
      else websocket_endpoint g enableTts rest audio_buffer

/-- An audio_chunk frame carrying a data payload, as the client sends it. -/
def mkChunk (d : String) : Inbound :=
  .obj [("type", JVal.str "audio_chunk"), ("data", JVal.str d)]

/-- A stop_recording frame. -/
def mkStop : Inbound :=
  .obj [("type", JVal.str "stop_recording")]

/-! ## Trace observations -/

/-- The byte sequences passed to the transcription gateway in a trace. -/
def sttCalls : List Ev → List (List Nat)
  | [] => []
  | Ev.callSTT b :: rest => b :: sttCalls rest
  | _ :: rest => sttCalls rest

/-- The user texts passed to the completion gateway in a trace. -/
def llmCalls : List Ev → List String
  | [] => []
  | Ev.callLLM _ u :: rest => u :: llmCalls rest
  | _ :: rest => llmCalls rest

/-- The reply texts passed to the synthesis gateway in a trace. -/
def ttsCalls : List Ev → List String
  | [] => []
  | Ev.callTTS s :: rest => s :: ttsCalls rest
  | _ :: rest => ttsCalls rest

/-- The payloads of the audio events sent in a trace. -/
def audioEvents : List Ev → List String
  | [] => []
  | Ev.send (OutMsg.audio d) :: rest => d :: audioEvents rest
  | _ :: rest => audioEvents rest

/-- The payloads of the browser_tts events sent in a trace. -/
def browserTtsEvents : List Ev → List String
  | [] => []
  | Ev.send (OutMsg.browserTts s) :: rest => s :: browserTtsEvents rest
  | _ :: rest => browserTtsEvents rest

/-- The payloads of the transcription events sent in a trace. -/
def transcriptionEvents : List Ev → List String
  | [] => []
  | Ev.send (OutMsg.transcription s) :: rest => s :: transcriptionEvents rest
  | _ :: rest => transcriptionEvents rest

/-- The payloads of the response_text events sent in a trace. -/
def responseTextEvents : List Ev → List String
  | [] => []
  | Ev.send (OutMsg.responseText s) :: rest => s :: responseTextEvents rest
  | _ :: rest => responseTextEvents rest

/-- The texts of the status events sent in a trace. -/
def statusEvents : List Ev → List String
  | [] => []
  | Ev.send (OutMsg.status s) :: rest => s :: statusEvents rest
  | _ :: rest => statusEvents rest

/-- True of an event that starts the completion or synthesis stage. -/
def isStageCall : Ev → Bool
  | .callLLM _ _ => true
  | .callTTS _ => true
  | _ => false

/-- True of an event that starts the transcription stage. -/
def isSttCall : Ev → Bool
  | .callSTT _ => true
  | _ => false

/-- True of a status message sent to the client. -/
def isStatusSend : Ev → Bool
  | .send (.status _) => true
  | _ => false

/-- Every completion or synthesis gateway call in the trace is immediately
preceded by a status message; prev is the event before the list, if any. -/
def announcedFrom (prev : Option Ev) : List Ev → Bool
  | [] => true
  | e :: rest =>
    (if isStageCall e then
       match prev with
       | some p => isStatusSend p
       | none => false
     else true)
    && announcedFrom (some e) rest

/-! ## Concrete gateway instances for witnesses and counterexamples -/

/-- Gateways where every stage succeeds; the synthesis stream has two
fragments. -/
def gOk : Gateways where
  stt := fun _ => .ok "hello there"
  llm := fun _ => .ok "Hi there"
  tts := fun _ => .ok (.stream [[1, 2], [3]])

/-- Gateways whose transcription result is whitespace only (a space, a
no-break space and a form feed). -/
def gBlank : Gateways where
  stt := fun _ => .ok "  \x0c"
  llm := fun _ => .ok "Hi there"
  tts := fun _ => .ok (.stream [[1, 2], [3]])

/-- Gateways whose transcription call raises. -/
def gSttErr : Gateways where
  stt := fun _ => .error ()
  llm := fun _ => .ok "Hi there"
  tts := fun _ => .ok (.stream [[1, 2], [3]])

/-- Gateways whose synthesis call succeeds with an empty fragment stream. -/
def gTtsEmpty : Gateways where
  stt := fun _ => .ok "hello there"
  llm := fun _ => .ok "Hi there"
  tts := fun _ => .ok (.stream [])

/-! ## Sanity checks of the base64 embedding -/

example : pyB64decode "AQID" = some [1, 2, 3] := by decide
example : pyB64decode "QQ==" = some [65] := by decide
example : pyB64decode "QQ" = none := by decide
example : pyB64decode "QQ=" = none := by decide
example : pyB64decode "aGVsbG8=" = some [104, 101, 108, 108, 111] := by decide
example : b64encode [1, 2, 3] = "AQID" := by decide
example : b64encode [104, 101, 108, 108, 111] = "aGVsbG8=" := by decide
example : b64encode [65] = "QQ==" := by decide
example : b64encode [] = "" := by decide
example : pyB64decode "QQ==QQ==" = some [65] := by decide
example : pyB64decode "AB=CDEF=GH" = some [0, 16, 131, 16, 81, 135] := by decide
example : pyB64decode "AB=CDEF=G" = none := by decide
example : pyB64decode "AQIDé" = none := by decide
example : pyStrip "  " = "" := by decide
example : pyStrip "\x0c" = "" := by decide
example : pyStrip " \x1c " = "" := by decide
example : pyStrip "  hello　" = "hello" := by decide
example : pyStrip "hi there" = "hi there" := by decide

/-! ## Supporting lemmas -/

/-- The accumulation loop of the source, which skips empty fragments,
computes the plain concatenation of the fragments. -/
theorem foldl_accumulate_eq_join (frags : List (List Nat)) :
    ∀ acc : List Nat,
      frags.foldl (fun acc chunk => if chunk = [] then acc else acc ++ chunk) acc
        = acc ++ frags.flatten := by
  induction frags with
  | nil => intro acc; simp
  | cons c cs ih =>
    intro acc
    by_cases hc : c = [] <;> simp [List.foldl, hc, ih]

theorem sttCalls_append (a b : List Ev) :
    sttCalls (a ++ b) = sttCalls a ++ sttCalls b := by
  induction a with
  | nil => simp [sttCalls]
  | cons e rest ih =>
    cases e <;> simp [sttCalls, ih]

/-- The LLM-and-TTS stage never calls the transcription gateway. -/
theorem sttCalls_process_llm_and_tts (g : Gateways) (fl : Bool) (t : String) :
    sttCalls (process_llm_and_tts g fl t) = [] := by
  unfold process_llm_and_tts
  cases hll : g.llm t with
  | error e => simp [sttCalls]
  | ok ai =>
    cases fl with
    | false => simp [sttCalls]
    | true =>
      cases htts : g.tts ai with
      | error e => simp [htts, sttCalls]
      | ok r =>
        cases r with
        | stream frags =>
          simp only [htts, eq_self_iff_true, if_true]
          split <;> simp [sttCalls]
        | blob b =>
          simp only [htts, eq_self_iff_true, if_true]
          split <;> simp [sttCalls]

theorem sttCalls_nil : sttCalls [] = [] := rfl

theorem sttCalls_send (m : OutMsg) (rest : List Ev) :
    sttCalls (Ev.send m :: rest) = sttCalls rest := rfl

theorem sttCalls_callSTT (b : List Nat) (rest : List Ev) :
    sttCalls (Ev.callSTT b :: rest) = b :: sttCalls rest := rfl

/-- One pipeline run calls the transcription gateway exactly once, with
the utterance bytes. -/
theorem sttCalls_run_pipeline (g : Gateways) (fl : Bool) (audio : List Nat) :
    sttCalls (run_pipeline g fl audio) = [audio] := by
  unfold run_pipeline
  cases hstt : g.stt audio with
  | error e => simp [sttCalls_callSTT, sttCalls_send, sttCalls_nil]
  | ok s =>
    by_cases hs : pyStrip s = "" <;>
      simp [hs, sttCalls_callSTT, sttCalls_send, sttCalls_nil,
        sttCalls_process_llm_and_tts]

theorem traceOf_prependTrace (t : List Ev) (r : HResult) :
    traceOf (prependTrace t r) = t ++ traceOf r := by
  cases r <;> simp [prependTrace, traceOf]

/-- Consuming a block of well-formed audio_chunk frames just appends the
decoded payloads to the buffer, in arrival order, with no events. -/
theorem websocket_endpoint_chunks (g : Gateways) (fl : Bool) :
    ∀ (ds : List String) (bs : List (List Nat)) (rest : List Inbound)
      (buf : List Nat), decodeAll ds = some bs →
      websocket_endpoint g fl (ds.map mkChunk ++ rest) buf
        = websocket_endpoint g fl rest (buf ++ bs.flatten) := by
  intro ds
  induction ds with
  | nil =>
    intro bs rest buf h
    simp [decodeAll] at h
    subst h
    simp
  | cons d ds ih =>
    intro bs rest buf h
    unfold decodeAll at h
    cases hd : pyB64decode d with
    | none => rw [hd] at h; simp at h
    | some b =>
      rw [hd] at h
      cases hds : decodeAll ds with
      | none => rw [hds] at h; simp at h
      | some bs2 =>
        rw [hds] at h
        simp at h
        subst h
        simp only [List.map_cons, List.cons_append]
        rw [show websocket_endpoint g fl (mkChunk d :: (ds.map mkChunk ++ rest)) buf
              = websocket_endpoint g fl (ds.map mkChunk ++ rest) (buf ++ b) from by
            simp [websocket_endpoint, mkChunk, List.lookup, hd]]
        rw [ih bs2 rest (buf ++ b) hds]
        simp

/-- Stepping one stop_recording frame with a non-empty buffer: the pipeline
runs, a Ready status follows it, the buffer is reset and the session
continues. -/
theorem websocket_endpoint_stop (g : Gateways) (fl : Bool)
    (fs : List (String × JVal)) (rest : List Inbound) (buf : List Nat)
    (h1 : fs.lookup "type" = some (JVal.str "stop_recording"))
    (h2 : buf ≠ []) :
    websocket_endpoint g fl (Inbound.obj fs :: rest) buf
      = prependTrace
          (run_pipeline g fl buf ++ [Ev.send (OutMsg.status "Ready")])
          (websocket_endpoint g fl rest []) := by
  have hlen : buf.length > 0 := List.length_pos.mpr h2
  simp [websocket_endpoint, h1, hlen]

/-- Every completion-gateway call and every synthesis-gateway call inside
the LLM-and-TTS stage is immediately preceded by a status message. -/
theorem announcedFrom_process_llm_and_tts (g : Gateways) (fl : Bool)
    (t : String) (prev : Option Ev) :
    announcedFrom prev (process_llm_and_tts g fl t) = true := by
  unfold process_llm_and_tts
  cases hll : g.llm t with
  | error e => simp [announcedFrom, isStageCall, isStatusSend]
  | ok ai =>
    cases fl with
    | false => simp [announcedFrom, isStageCall, isStatusSend]
    | true =>
      cases htts : g.tts ai with
      | error e => simp [htts, announcedFrom, isStageCall, isStatusSend]
      | ok r =>
        cases r with
        | stream frags =>
          simp only [htts, eq_self_iff_true, if_true]
          split <;> simp [announcedFrom, isStageCall, isStatusSend]
        | blob b =>
          simp only [htts, eq_self_iff_true, if_true]
          split <;> simp [announcedFrom, isStageCall, isStatusSend]

theorem announcedFrom_nil (prev : Option Ev) : announcedFrom prev [] = true := rfl

theorem announcedFrom_cons (prev : Option Ev) (e : Ev) (rest : List Ev) :
    announcedFrom prev (e :: rest)
      = ((if isStageCall e then
            match prev with
            | some p => isStatusSend p
            | none => false
          else true)
         && announcedFrom (some e) rest) := rfl

/-! ## The claims -/

/-- C1: for every sequence of audio_chunk messages followed by one
stop_recording, the byte sequence passed to the Transcription Gateway
equals the exact concatenation of the base64-decoded chunk payloads in
arrival order. -/
theorem c1_stt_receives_concatenation (g : Gateways) (fl : Bool)
    (ds : List String) (bs : List (List Nat))
    (h : decodeAll ds = some bs) (hne : bs.flatten ≠ []) :
    sttCalls (traceOf
        (websocket_endpoint g fl (ds.map mkChunk ++ [mkStop]) []))
      = [bs.flatten] := by
  rw [websocket_endpoint_chunks g fl ds bs [mkStop] [] h]
  simp only [List.nil_append]
  rw [show mkStop = Inbound.obj [("type", JVal.str "stop_recording")] from rfl]
  rw [websocket_endpoint_stop g fl [("type", JVal.str "stop_recording")] []
        bs.flatten (by decide) hne]
  rw [traceOf_prependTrace]
  simp [sttCalls_append, sttCalls_run_pipeline, sttCalls_send, sttCalls_nil,
    websocket_endpoint, traceOf]

/-- Witness for C1: two chunks, AQID and BA==, decode to 01 02 03 and 04;
the transcription gateway receives exactly 01 02 03 04. -/
theorem c1_witness :
    decodeAll ["AQID", "BA=="] = some [[1, 2, 3], [4]] ∧
    ([[1, 2, 3], [4]] : List (List Nat)).flatten ≠ [] ∧
    sttCalls (traceOf (websocket_endpoint gOk false
        (["AQID", "BA=="].map mkChunk ++ [mkStop]) [])) = [[1, 2, 3, 4]] :=
  ⟨by decide, by decide,
    c1_stt_receives_concatenation gOk false ["AQID", "BA=="] [[1, 2, 3], [4]]
      (by decide) (by decide)⟩

/-- C2 as stated is false on the code: at this concrete input the pipeline
makes its transcription call with no status message (indeed no message at
all) sent before it, so the transcription step is not announced. -/
theorem c2_counterexample :
    ((run_pipeline gOk false [1]).takeWhile fun e => !isSttCall e).filter
        isStatusSend = [] ∧
    (run_pipeline gOk false [1]).any isSttCall = true := by decide

/-- C2 amended: in every pipeline run, the completion step and the
synthesis step each emit a status notification to the client immediately
before that step starts; the transcription step emits none. -/
theorem c2_amended_stages_announced (g : Gateways) (fl : Bool)
    (audio : List Nat) :
    announcedFrom none (run_pipeline g fl audio) = true := by
  unfold run_pipeline
  cases hstt : g.stt audio with
  | error e =>
    simp [announcedFrom_cons, announcedFrom_nil, isStageCall, isStatusSend]
  | ok s =>
    by_cases hs : pyStrip s = ""
    · simp [hs, announcedFrom_cons, announcedFrom_nil, isStageCall,
        isStatusSend]
    · simp [hs, announcedFrom_cons, isStageCall, isStatusSend,
        announcedFrom_process_llm_and_tts]

/-- C3: after every completed pipeline run triggered by stop_recording with
a non-empty buffer, whatever the gateways did, the session continues with
an empty buffer (Idle) and the last event of the run is the terminal Ready
status. -/
theorem c3_run_returns_idle_ready (g : Gateways) (fl : Bool)
    (fs : List (String × JVal)) (rest : List Inbound) (buf : List Nat)
    (h1 : fs.lookup "type" = some (JVal.str "stop_recording"))
    (h2 : buf ≠ []) :
    websocket_endpoint g fl (Inbound.obj fs :: rest) buf
      = prependTrace
          (run_pipeline g fl buf ++ [Ev.send (OutMsg.status "Ready")])
          (websocket_endpoint g fl rest []) ∧
    (run_pipeline g fl buf ++ [Ev.send (OutMsg.status "Ready")]).getLast?
      = some (Ev.send (OutMsg.status "Ready")) :=
  ⟨websocket_endpoint_stop g fl fs rest buf h1 h2, by simp⟩

/-- Witness for C3: one stop_recording frame on buffer 07 with all-success
gateways. -/
theorem c3_witness :
    List.lookup "type" [("type", JVal.str "stop_recording")]
        = some (JVal.str "stop_recording") ∧
    ([7] : List Nat) ≠ [] ∧
    (websocket_endpoint gOk false
        [Inbound.obj [("type", JVal.str "stop_recording")]] [7]
      = prependTrace
          (run_pipeline gOk false [7] ++ [Ev.send (OutMsg.status "Ready")])
          (websocket_endpoint gOk false [] []) ∧
    (run_pipeline gOk false [7] ++ [Ev.send (OutMsg.status "Ready")]).getLast?
      = some (Ev.send (OutMsg.status "Ready"))) :=
  ⟨by decide, by decide,
    c3_run_returns_idle_ready gOk false [("type", JVal.str "stop_recording")]
      [] [7] (by decide) (by decide)⟩

/-- C4: a successful transcription that is empty after trimming whitespace
short-circuits the pipeline: no completion call, no synthesis call, and the
only status sent is the single no-speech-detected message. -/
theorem c4_empty_transcript_short_circuits (g : Gateways) (fl : Bool)
    (audio : List Nat) (s : String)
    (h1 : g.stt audio = Except.ok s) (h2 : pyStrip s = "") :
    llmCalls (run_pipeline g fl audio) = [] ∧
    ttsCalls (run_pipeline g fl audio) = [] ∧
    statusEvents (run_pipeline g fl audio) = ["No speech detected."] := by
  unfold run_pipeline
  simp [h1, h2, llmCalls, ttsCalls, statusEvents]

/-- Witness for C4: a whitespace-only transcript. -/
theorem c4_witness :
    gBlank.stt [1] = Except.ok " \u00A0\x0c" ∧ pyStrip " \u00A0\x0c" = "" ∧
    (llmCalls (run_pipeline gBlank false [1]) = [] ∧
     ttsCalls (run_pipeline gBlank false [1]) = [] ∧
     statusEvents (run_pipeline gBlank false [1]) = ["No speech detected."]) :=
  ⟨rfl, by decide,
    c4_empty_transcript_short_circuits gBlank false [1] " \u00A0\x0c" rfl (by decide)⟩

/-- C5: when the Transcription Gateway raises, the run sends exactly one
status, with text Error in transcription., and no transcription event and
no response_text event. -/
theorem c5_transcription_error (g : Gateways) (fl : Bool) (audio : List Nat)
    (h : g.stt audio = Except.error ()) :
    statusEvents (run_pipeline g fl audio) = ["Error in transcription."] ∧
    transcriptionEvents (run_pipeline g fl audio) = [] ∧
    responseTextEvents (run_pipeline g fl audio) = [] := by
  unfold run_pipeline
  simp [h, statusEvents, transcriptionEvents, responseTextEvents]

/-- Witness for C5: a transcription gateway that raises. -/
theorem c5_witness :
    gSttErr.stt [1] = Except.error () ∧
    (statusEvents (run_pipeline gSttErr false [1])
        = ["Error in transcription."] ∧
     transcriptionEvents (run_pipeline gSttErr false [1]) = [] ∧
     responseTextEvents (run_pipeline gSttErr false [1]) = []) :=
  ⟨rfl, c5_transcription_error gSttErr false [1] rfl⟩

/-- C6 as stated is false on the code: with synthesis enabled and a
synthesis gateway that succeeds with an empty fragment stream, no audio
event is emitted at all, instead of exactly one carrying the encoding of
the (empty) concatenation. -/
theorem c6_counterexample :
    gTtsEmpty.tts "Hi there" = Except.ok (TtsResult.stream []) ∧
    audioEvents (process_llm_and_tts gTtsEmpty true "hello") = [] ∧
    ¬ audioEvents (process_llm_and_tts gTtsEmpty true "hello")
        = [b64encode (List.flatten ([] : List (List Nat)))] := by
  refine ⟨rfl, by decide, by decide⟩

/-- C6 amended: with remote synthesis enabled, when the Synthesis Gateway
succeeds with streamed fragments whose concatenation is non-empty, exactly
one audio event is emitted, whose data field is the base64 encoding of the
concatenation of the fragments in order. -/
theorem c6_amended_single_audio_event (g : Gateways) (t r : String)
    (frags : List (List Nat))
    (h1 : g.llm t = Except.ok r)
    (h2 : g.tts r = Except.ok (TtsResult.stream frags))
    (h3 : frags.flatten ≠ []) :
    audioEvents (process_llm_and_tts g true t) = [b64encode frags.flatten] := by
  unfold process_llm_and_tts
  simp [h1, h2, foldl_accumulate_eq_join, h3, audioEvents]

/-- Witness for C6 amended: fragments 01 02 and 03 produce one audio event
with the base64 encoding of 01 02 03. -/
theorem c6_witness :
    gOk.llm "hello" = Except.ok "Hi there" ∧
    gOk.tts "Hi there" = Except.ok (TtsResult.stream [[1, 2], [3]]) ∧
    ([[1, 2], [3]] : List (List Nat)).flatten ≠ [] ∧
    audioEvents (process_llm_and_tts gOk true "hello")
      = [b64encode (List.flatten [[1, 2], [3]])] :=
  ⟨rfl, rfl, by decide,
    c6_amended_single_audio_event gOk "hello" "Hi there" [[1, 2], [3]]
      rfl rfl (by decide)⟩

/-- C7: with remote synthesis disabled (the value hardcoded in the source),
every successful completion emits exactly one browser_tts event carrying
the reply text, and zero audio events. -/
theorem c7_browser_tts_only (g : Gateways) (t r : String)
    (h : g.llm t = Except.ok r) :
    browserTtsEvents (process_llm_and_tts g ENABLE_ELEVENLABS_TTS t) = [r] ∧
    audioEvents (process_llm_and_tts g ENABLE_ELEVENLABS_TTS t) = [] := by
  unfold process_llm_and_tts ENABLE_ELEVENLABS_TTS
  simp [h, browserTtsEvents, audioEvents]

/-- Witness for C7: a successful completion with the flag as in the
source. -/
theorem c7_witness :
    gOk.llm "hello" = Except.ok "Hi there" ∧
    (browserTtsEvents (process_llm_and_tts gOk ENABLE_ELEVENLABS_TTS "hello")
        = ["Hi there"] ∧
     audioEvents (process_llm_and_tts gOk ENABLE_ELEVENLABS_TTS "hello")
        = []) :=
  ⟨rfl, c7_browser_tts_only gOk "hello" "Hi there" rfl⟩

/-- C8: a stop_recording message received while the accumulator buffer is
empty is a no-op, the session behaving exactly as if the message had not
arrived: no transcription call, no message sent, state unchanged. -/
theorem c8_stop_empty_buffer_noop (g : Gateways) (fl : Bool)
    (fs : List (String × JVal)) (rest : List Inbound)
    (h : fs.lookup "type" = some (JVal.str "stop_recording")) :
    websocket_endpoint g fl (Inbound.obj fs :: rest) []
      = websocket_endpoint g fl rest [] := by
  simp [websocket_endpoint, h]

/-- Witness for C8: a single stop_recording frame on an empty buffer. -/
theorem c8_witness :
    List.lookup "type" [("type", JVal.str "stop_recording")]
        = some (JVal.str "stop_recording") ∧
    websocket_endpoint gOk false
        [Inbound.obj [("type", JVal.str "stop_recording")]] []
      = websocket_endpoint gOk false [] [] :=
  ⟨by decide,
    c8_stop_empty_buffer_noop gOk false [("type", JVal.str "stop_recording")]
      [] (by decide)⟩

/-- C9: an inbound message whose type field is neither audio_chunk nor
stop_recording is ignored: the session behaves exactly as if the frame had
not arrived, so no transition, no error, no outbound message. -/
theorem c9_unknown_type_ignored (g : Gateways) (fl : Bool)
    (fs : List (String × JVal)) (rest : List Inbound) (buf : List Nat)
    (t : JVal) (h1 : fs.lookup "type" = some t)
    (h2 : t ≠ JVal.str "audio_chunk") (h3 : t ≠ JVal.str "stop_recording") :
    websocket_endpoint g fl (Inbound.obj fs :: rest) buf
      = websocket_endpoint g fl rest buf := by
  simp [websocket_endpoint, h1, h2, h3]

/-- Witness for C9: a frame of type ping on a non-empty buffer. -/
theorem c9_witness :
    List.lookup "type" [("type", JVal.str "ping")] = some (JVal.str "ping") ∧
    JVal.str "ping" ≠ JVal.str "audio_chunk" ∧
    JVal.str "ping" ≠ JVal.str "stop_recording" ∧
    websocket_endpoint gOk false [Inbound.obj [("type", JVal.str "ping")]] [5]
      = websocket_endpoint gOk false [] [5] :=
  ⟨by decide, by decide, by decide,
    c9_unknown_type_ignored gOk false [("type", JVal.str "ping")] [] [5]
      (JVal.str "ping") (by decide) (by decide) (by decide)⟩

/-- C10: an inbound frame that is not valid JSON, or lacks a type field, or
is an audio_chunk without a data field or whose data field does not decode
as base64, raises an exception the handler does not catch: the session
terminates at once, whatever frames follow and whatever audio is buffered,
and the buffered audio is never passed anywhere. -/
theorem c10_malformed_frame_crashes (g : Gateways) (fl : Bool)
    (rest : List Inbound) (buf : List Nat) (f : Inbound)
    (h : f = Inbound.notJson
       ∨ (∃ fs, f = Inbound.obj fs ∧ fs.lookup "type" = none)
       ∨ (∃ fs, f = Inbound.obj fs
            ∧ fs.lookup "type" = some (JVal.str "audio_chunk")
            ∧ fs.lookup "data" = none)
       ∨ (∃ fs d, f = Inbound.obj fs
            ∧ fs.lookup "type" = some (JVal.str "audio_chunk")
            ∧ fs.lookup "data" = some (JVal.str d)
            ∧ pyB64decode d = none)) :
    websocket_endpoint g fl (f :: rest) buf = HResult.crashed [] := by
  rcases h with rfl | ⟨fs, rfl, h1⟩ | ⟨fs, rfl, h1, h2⟩ |
    ⟨fs, d, rfl, h1, h2, h3⟩ <;>
    simp [websocket_endpoint, *]

/-- Witness for C10: the payload QQ is rejected by base64 decoding
(incorrect padding), so the chunk frame kills the session. -/
theorem c10_witness :
    pyB64decode "QQ" = none ∧
    websocket_endpoint gOk false [mkChunk "QQ", mkStop] [9]
      = HResult.crashed [] :=
  ⟨by decide,
    c10_malformed_frame_crashes gOk false [mkStop] [9] (mkChunk "QQ")
      (Or.inr (Or.inr (Or.inr
        ⟨[("type", JVal.str "audio_chunk"), ("data", JVal.str "QQ")], "QQ",
          rfl, by decide, by decide, by decide⟩)))⟩
